import Mathlib

/-!
Shallow embedding of `media-organizer-rust` (src/src/main.rs).

The program enumerates an input directory, filters entries by extension,
classifies each media file into a destination subfolder name from its
embedded metadata (via the nom_exif library), and moves the file (or
simulates the move in dry-run mode).

Modelling conventions:
* `Except String α` models Rust `Result<α, Error>` with the error rendered
  through its Display string (the only use the program makes of errors).
* `Option` models Rust `Option`; a Rust `.unwrap()` on `None` is modelled
  as the `abort` outcome (process panic).
* Log output is a pure list of `LogLine`s; `LogLine.error` models
  `eprintln!` (standard error), every other constructor models `println!`
  (standard output).  `Logger.debug` prints only when debug mode is on,
  which is threaded through as the `is_debug : Bool` argument.
* Filesystem mutations are reified as a list of `FsAction`s.
-/

/-- Severity-tagged console line, as produced by `Logger` in main.rs.
`plain` is the bare `println!` in `Logger::new`. -/
inductive LogLine where
  | plain (message : String)
  | info (message : String)
  | warning (message : String)
  | debug (message : String)
  | error (message : String)
deriving DecidableEq, Repr

/-- Which stream a line goes to: `Logger::error` uses `eprintln!`, all
other methods use `println!`. -/
inductive OutStream where
  | stdout
  | stderr
deriving DecidableEq, Repr

def LogLine.stream : LogLine → OutStream
  | .error _ => .stderr
  | _ => .stdout

/-- Filesystem mutations performed by main.rs: `fs::create_dir_all` and
`fs::rename`. -/
inductive FsAction where
  | create_dir_all (path : String)
  | rename (source destination : String)
deriving DecidableEq, Repr

/-- The nom_exif Exif tags the program matches on; every other tag is
collapsed into `other`. -/
inductive ExifTag where
  | DateTimeOriginal
  | CreateDate
  | other (code : Nat)
deriving DecidableEq, Repr

/-- A chrono `DateTime<FixedOffset>` value as nom_exif surfaces it:
local calendar/clock fields plus the fixed offset.  `date_naive()` keeps
the local calendar fields and discards the clock and the offset. -/
structure TimeVal where
  year : Int
  month : Nat
  day : Nat
  hour : Nat
  minute : Nat
  second : Nat
  offset_minutes : Int
deriving DecidableEq, Repr

/-- A nom_exif `EntryValue`: either a date-time or some non-time payload
(collapsed to its textual form, which the program never uses). -/
inductive EntryValue where
  | time (t : TimeVal)
  | text (s : String)
deriving DecidableEq, Repr

/-- `EntryValue::as_time`: `Some` exactly on the time variant. -/
def EntryValue.as_time : EntryValue → Option TimeVal
  | .time t => some t
  | .text _ => none

/-- One entry yielded by the nom_exif `ExifIter`: `entry.tag()` returns
`Option<ExifTag>` and `entry.get_value()` returns `Option<&EntryValue>`. -/
structure ExifEntry where
  tag : Option ExifTag
  value : Option EntryValue
deriving DecidableEq, Repr

/-- The predicate of the `matches!` in main.rs: the tag of the entry is
`Some(DateTimeOriginal | CreateDate)`. -/
def isDateTag (entry : ExifEntry) : Bool :=
  match entry.tag with
  | some ExifTag.DateTimeOriginal => true
  | some ExifTag.CreateDate => true
  | _ => false

/-- nom_exif `TrackInfo`, reduced to the single query the program makes:
`info.get(TrackInfoTag::CreateDate)` returning `Option<&EntryValue>`. -/
structure TrackInfoData where
  create_date : Option EntryValue
deriving DecidableEq, Repr

deriving instance DecidableEq for Except

/-- A successfully opened `MediaSource` together with the outcomes the
program can observe on it: the two presence flags and the result of
`parser.parse` in each branch. -/
structure MediaSourceData where
  has_exif : Bool
  has_track : Bool
  exif_parse : Except String (List ExifEntry)
  track_parse : Except String TrackInfoData
deriving DecidableEq, Repr

/-- Outcome of `determine_subfolder_name_from_metadata`: a normal return
of `Option<String>`, or a panic (`abort`) from one of its `.unwrap()`
calls. -/
inductive ClassifyOutcome where
  | ret (result : Option String)
  | abort
deriving DecidableEq, Repr

/-- Chrono digit helper: the low decimal digits of `n`, zero-padded to
width 4 (only applied when `n ≤ 9999`, where it is the full decimal). -/
def pad4 (n : Nat) : String :=
  String.mk [Nat.digitChar (n / 1000 % 10), Nat.digitChar (n / 100 % 10),
    Nat.digitChar (n / 10 % 10), Nat.digitChar (n % 10)]

/-- The chrono `%Y` format specifier: the proleptic Gregorian year,
zero-padded to 4 digits, with a sign when outside `0..=9999`. -/
def formatY (y : Int) : String :=
  if 0 ≤ y then
    if y ≤ 9999 then pad4 y.toNat else "+" ++ toString y.toNat
  else
    if -9999 ≤ y then "-" ++ pad4 (-y).toNat else "-" ++ toString (-y).toNat

def NOT_QUALIFIED : String := "NOT_QUALIFIED"

/-- `determine_subfolder_name_from_metadata` from main.rs.  Its input is
the result of `MediaSource::file_path(path)`; its output pairs the log
lines it emits with its outcome. -/
def determine_subfolder_name_from_metadata
    (media : Except String MediaSourceData) : List LogLine × ClassifyOutcome :=
  match media with
  | .error error =>
      ([LogLine.warning
          ("Couldn't get metadata of the file so skipping it. Details: " ++ error)],
        ClassifyOutcome.ret none)
  | .ok media_source =>
    if media_source.has_exif then
      match media_source.exif_parse with
      | .error error =>
          ([LogLine.warning ("Failed parsing Exif data. Details: " ++ error)],
            ClassifyOutcome.ret (some NOT_QUALIFIED))
      | .ok entries =>
        match entries.find? isDateTag with
        | none =>
            ([LogLine.warning
                "Failed reading Exif data. Details: No DateTimeOriginal or CreateDate tag found."],
              ClassifyOutcome.ret (some NOT_QUALIFIED))
        | some exif_entry =>
          match exif_entry.value with
          | none => ([], ClassifyOutcome.abort)
          | some value =>
            match value.as_time with
            | none => ([], ClassifyOutcome.abort)
            | some exif_data =>
                ([], ClassifyOutcome.ret (some (formatY exif_data.year)))
    else if media_source.has_track then
      match media_source.track_parse with
      | .error error =>
          ([LogLine.warning ("Failed parsing track data. Details: " ++ error)],
            ClassifyOutcome.ret (some NOT_QUALIFIED))
      | .ok info =>
        match info.create_date with
        | none => ([], ClassifyOutcome.abort)
        | some track_data =>
          match track_data.as_time with
          | none => ([], ClassifyOutcome.abort)
          | some t => ([], ClassifyOutcome.ret (some (formatY t.year)))
    else
      ([LogLine.warning "No Exif or Track data found so skipping the current file."],
        ClassifyOutcome.ret (some NOT_QUALIFIED))

/-- One directory entry as the walker observes it: the path string, the
results of `path.file_name()...to_str()` and `path.extension()...to_str()`
(collapsed to one `Option` each), and the metadata view the classifier
gets when opening that path. -/
structure EntryPath where
  path : String
  fileName : Option String
  extension : Option String
  meta : Except String MediaSourceData
deriving DecidableEq, Repr

/-- The command-line arguments of main.rs. -/
structure Cli where
  input_folder : String
  output_folder : String
  dry_run : Bool
deriving DecidableEq, Repr

/-- Rust `str::to_lowercase` as applied here: Unicode lowercasing,
restricted to its ASCII action (the recognized extensions it is compared
against are ASCII, where the two coincide). -/
def toLowercase (s : String) : String :=
  String.mk (s.data.map fun c =>
    if 65 <= c.toNat && c.toNat <= 90 then Char.ofNat (c.toNat + 32) else c)

def recognizedExtensions : List String := ["jpg", "jpeg", "png", "mov", "mp4"]

/-- The two log lines the loop body emits for an entry before the
extension filter: the `Processing file N of M` info line and, in debug
mode only, the `File name` debug line. -/
def headerLogs (is_debug : Bool) (index amount : Nat) (file_name : String) :
    List LogLine :=
  [LogLine.info
      ("Processing file " ++ toString (index + 1) ++ " of " ++ toString amount ++ " ⏳")]
    ++ (if is_debug then [LogLine.debug ("File name: " ++ file_name ++ " 🪲")] else [])

/-- One iteration of the `for` loop in `main`.  Returns the log lines,
the filesystem actions, and whether the iteration panicked (an
`.unwrap()` failure aborting the whole process). -/
def processFile (is_debug : Bool) (output_folder : String) (dry_run : Bool)
    (index amount : Nat) (file : Except String EntryPath) :
    List LogLine × List FsAction × Bool :=
  match file with
  | .error _ => ([], [], true)
  | .ok entry =>
    match entry.fileName with
    | none => ([], [], true)
    | some file_name =>
      let logs1 := headerLogs is_debug index amount file_name
      match entry.extension with
      | none => (logs1, [], true)
      | some ext =>
        let extension := toLowercase ext
        if !(recognizedExtensions.contains extension) then
          (logs1, [], false)
        else
          match determine_subfolder_name_from_metadata entry.meta with
          | (clogs, ClassifyOutcome.abort) => (logs1 ++ clogs, [], true)
          | (clogs, ClassifyOutcome.ret none) => (logs1 ++ clogs, [], false)
          | (clogs, ClassifyOutcome.ret (some destination_subfolder_name)) =>
            let new_file_path :=
              output_folder ++ "/" ++ destination_subfolder_name ++ "/" ++ file_name
            if dry_run then
              (logs1 ++ clogs
                ++ [LogLine.info "Dry run... (Skipping moving the file.)",
                    LogLine.info ("Would move " ++ file_name ++ " to " ++ new_file_path)],
                [], false)
            else
              (logs1 ++ clogs,
                [FsAction.create_dir_all
                    (output_folder ++ "/" ++ destination_subfolder_name),
                  FsAction.rename entry.path new_file_path],
                false)

/-- Terminal state of one run: normal completion, `process::exit(1)` on
the directory-open failure, or a panic-driven abort. -/
inductive RunOutcome where
  | finished
  | exit1
  | aborted
deriving DecidableEq, Repr

/-- The `for` loop of `main`, from entry number `index` on.  A panicking
iteration stops the run (`aborted`); entries after it are untouched. -/
def processEntries (is_debug : Bool) (output_folder : String) (dry_run : Bool)
    (amount : Nat) :
    Nat → List (Except String EntryPath) → List LogLine × List FsAction × RunOutcome
  | _, [] => ([], [], RunOutcome.finished)
  | index, file :: rest =>
    match processFile is_debug output_folder dry_run index amount file with
    | (logs, actions, true) => (logs, actions, RunOutcome.aborted)
    | (logs, actions, false) =>
      match processEntries is_debug output_folder dry_run amount (index + 1) rest with
      | (logs2, actions2, outcome) => (logs ++ logs2, actions ++ actions2, outcome)

/-- The lines printed before the directory is read: the `Debug mode:` line of `Logger::new` and the `Reading input folder` debug line. -/
def startupLogs (is_debug : Bool) : List LogLine :=
  [LogLine.plain ("Debug mode: " ++ (if is_debug then "true" else "false"))]
    ++ (if is_debug then [LogLine.debug "Reading input folder...📖"] else [])

/-- `main` from main.rs.  `dir` is the result of
`fs::read_dir(&args.input_folder)`: on error the program logs a fatal
error and exits with code 1; otherwise it collects the entries and runs
the loop. -/
def runMain (is_debug : Bool) (args : Cli)
    (dir : Except String (List (Except String EntryPath))) :
    List LogLine × List FsAction × RunOutcome :=
  match dir with
  | .error error =>
      (startupLogs is_debug
          ++ [LogLine.error ("Error while reading input directory. Details: " ++ error)],
        [], RunOutcome.exit1)
  | .ok folder_collection =>
    match processEntries is_debug args.output_folder args.dry_run
        folder_collection.length 0 folder_collection with
    | (logs, actions, outcome) =>
        (startupLogs is_debug
            ++ [LogLine.info "Iterating through files in the folder...🏃"] ++ logs,
          actions, outcome)

/-! ## Helper lemmas -/

theorem find?_first_of_append {α : Type} (p : α → Bool) (pre : List α) (e : α)
    (post : List α) (hpre : ∀ x ∈ pre, p x = false) (he : p e = true) :
    (pre ++ e :: post).find? p = some e := by
  induction pre with
  | nil => simp [List.find?, he]
  | cons a t ih =>
    have ha : p a = false := hpre a (by simp)
    simp only [List.cons_append, List.find?, ha]
    exact ih (fun x hx => hpre x (by simp [hx]))

theorem classify_exif_parse_error (ms : MediaSourceData) (error : String)
    (hx : ms.has_exif = true) (hp : ms.exif_parse = Except.error error) :
    determine_subfolder_name_from_metadata (Except.ok ms)
      = ([LogLine.warning ("Failed parsing Exif data. Details: " ++ error)],
          ClassifyOutcome.ret (some NOT_QUALIFIED)) := by
  simp [determine_subfolder_name_from_metadata, hx, hp]

/-! ## Claim theorems: classifier level -/

/-- C1: Spec claims that a file whose media source opens but carries
neither Exif nor track metadata gets a warning and `None` (no
classification, file left in place).  The code does emit the warning —
whose text even says "skipping the current file" — but then falls
through to return `Some("NOT_QUALIFIED")`, so the file would be moved
into the fallback bucket.  This theorem evaluates the classifier on such
a source and exhibits the `Some` return. -/
theorem classifier_no_metadata_returns_fallback :
    determine_subfolder_name_from_metadata (Except.ok
      { has_exif := false, has_track := false,
        exif_parse := Except.ok [], track_parse := Except.ok { create_date := none } })
      = ([LogLine.warning "No Exif or Track data found so skipping the current file."],
          ClassifyOutcome.ret (some NOT_QUALIFIED)) := rfl

/-- C2 counterexample: the claim says that whenever a metadata container
is detected but the expected date tag is absent, the outcome is a skip or
fallback placement and the process never aborts.  On a source with track
metadata whose creation-date field is absent, the classifier hits
`info.get(TrackInfoTag::CreateDate).unwrap()` and panics: its outcome is
not a normal return at all. -/
theorem track_missing_create_date_aborts_cx :
    ¬ ∃ result : Option String,
      (determine_subfolder_name_from_metadata (Except.ok
        { has_exif := false, has_track := true,
          exif_parse := Except.ok [], track_parse := Except.ok { create_date := none } })).2
        = ClassifyOutcome.ret result := by
  intro h
  obtain ⟨result, h⟩ := h
  exact ClassifyOutcome.noConfusion h

/-- C2 amended: when a metadata container is detected but the expected
date tag is absent, the photographic branch places the file in the
fallback bucket without aborting (and a track-metadata parse failure
does the same), but the track branch with an absent creation-date field
panics and aborts the process. -/
theorem missing_date_tag_outcomes :
    (∀ (ms : MediaSourceData) (entries : List ExifEntry),
        ms.has_exif = true → ms.exif_parse = Except.ok entries →
        entries.find? isDateTag = none →
        determine_subfolder_name_from_metadata (Except.ok ms)
          = ([LogLine.warning
                "Failed reading Exif data. Details: No DateTimeOriginal or CreateDate tag found."],
              ClassifyOutcome.ret (some NOT_QUALIFIED)))
    ∧ (∀ (ms : MediaSourceData) (error : String),
        ms.has_exif = false → ms.has_track = true →
        ms.track_parse = Except.error error →
        determine_subfolder_name_from_metadata (Except.ok ms)
          = ([LogLine.warning ("Failed parsing track data. Details: " ++ error)],
              ClassifyOutcome.ret (some NOT_QUALIFIED)))
    ∧ (∀ (ms : MediaSourceData) (info : TrackInfoData),
        ms.has_exif = false → ms.has_track = true →
        ms.track_parse = Except.ok info → info.create_date = none →
        determine_subfolder_name_from_metadata (Except.ok ms)
          = ([], ClassifyOutcome.abort)) := by
  refine ⟨?_, ?_, ?_⟩
  · intro ms entries hx hp hfind
    simp [determine_subfolder_name_from_metadata, hx, hp, hfind]
  · intro ms error hx ht hp
    simp [determine_subfolder_name_from_metadata, hx, ht, hp]
  · intro ms info hx ht hp hcd
    simp [determine_subfolder_name_from_metadata, hx, ht, hp, hcd]

/-- C2 witness: the amended statement applied to concrete sources — an
Exif source with no date tag yields the fallback bucket, and a track
source with no creation-date field aborts. -/
theorem missing_date_tag_outcomes_witness :
    determine_subfolder_name_from_metadata (Except.ok
      { has_exif := true, has_track := false,
        exif_parse := Except.ok [{ tag := some (ExifTag.other 7), value := none }],
        track_parse := Except.ok { create_date := none } })
      = ([LogLine.warning
            "Failed reading Exif data. Details: No DateTimeOriginal or CreateDate tag found."],
          ClassifyOutcome.ret (some NOT_QUALIFIED))
    ∧ determine_subfolder_name_from_metadata (Except.ok
      { has_exif := false, has_track := true,
        exif_parse := Except.ok [], track_parse := Except.ok { create_date := none } })
      = ([], ClassifyOutcome.abort) :=
  ⟨missing_date_tag_outcomes.1 _ [{ tag := some (ExifTag.other 7), value := none }]
      rfl rfl (by decide),
    missing_date_tag_outcomes.2.2 _ { create_date := none } rfl rfl rfl rfl⟩

/-- C10: in the photographic branch, once a DateTimeOriginal/CreateDate
entry is found, a missing value (`get_value().unwrap()`) or a value that
is not a date-time (`as_time()...unwrap()`) panics and aborts the whole
run instead of returning the fallback label or skipping. -/
theorem exif_date_value_unconvertible_aborts :
    (∀ (ms : MediaSourceData) (entries : List ExifEntry) (e : ExifEntry),
        ms.has_exif = true → ms.exif_parse = Except.ok entries →
        entries.find? isDateTag = some e → e.value = none →
        determine_subfolder_name_from_metadata (Except.ok ms)
          = ([], ClassifyOutcome.abort))
    ∧ (∀ (ms : MediaSourceData) (entries : List ExifEntry) (e : ExifEntry)
          (v : EntryValue),
        ms.has_exif = true → ms.exif_parse = Except.ok entries →
        entries.find? isDateTag = some e → e.value = some v → v.as_time = none →
        determine_subfolder_name_from_metadata (Except.ok ms)
          = ([], ClassifyOutcome.abort)) := by
  constructor
  · intro ms entries e hx hp hfind hv
    simp [determine_subfolder_name_from_metadata, hx, hp, hfind, hv]
  · intro ms entries e v hx hp hfind hv ht
    simp [determine_subfolder_name_from_metadata, hx, hp, hfind, hv, ht]

/-- C10 witness: concrete Exif sources whose found date entry has a
missing value, respectively a non-time value; both abort. -/
theorem exif_date_value_unconvertible_aborts_witness :
    determine_subfolder_name_from_metadata (Except.ok
      { has_exif := true, has_track := false,
        exif_parse := Except.ok [{ tag := some ExifTag.DateTimeOriginal, value := none }],
        track_parse := Except.ok { create_date := none } })
      = ([], ClassifyOutcome.abort)
    ∧ determine_subfolder_name_from_metadata (Except.ok
      { has_exif := true, has_track := false,
        exif_parse := Except.ok
          [{ tag := some ExifTag.CreateDate, value := some (EntryValue.text "oops") }],
        track_parse := Except.ok { create_date := none } })
      = ([], ClassifyOutcome.abort) :=
  ⟨exif_date_value_unconvertible_aborts.1 _
      [{ tag := some ExifTag.DateTimeOriginal, value := none }]
      { tag := some ExifTag.DateTimeOriginal, value := none } rfl rfl (by decide) rfl,
    exif_date_value_unconvertible_aborts.2 _
      [{ tag := some ExifTag.CreateDate, value := some (EntryValue.text "oops") }]
      { tag := some ExifTag.CreateDate, value := some (EntryValue.text "oops") }
      (EntryValue.text "oops") rfl rfl (by decide) rfl rfl⟩

/-- C3: with photographic metadata that parses successfully, the first
entry (in tag-set order) whose tag is DateTimeOriginal or CreateDate
wins, and the subfolder name is the four-digit calendar year of its
date value — the conclusion depends only on the year field, not on the
time-of-day or offset fields of the value. -/
theorem exif_first_date_tag_year_subfolder
    (ms : MediaSourceData) (pre post : List ExifEntry) (e : ExifEntry)
    (v : EntryValue) (t : TimeVal)
    (hx : ms.has_exif = true)
    (hp : ms.exif_parse = Except.ok (pre ++ e :: post))
    (hpre : ∀ x ∈ pre, isDateTag x = false)
    (he : isDateTag e = true)
    (hv : e.value = some v)
    (ht : v.as_time = some t)
    (hy0 : 0 ≤ t.year) (hy1 : t.year ≤ 9999) :
    determine_subfolder_name_from_metadata (Except.ok ms)
      = ([], ClassifyOutcome.ret (some (pad4 t.year.toNat)))
    ∧ (pad4 t.year.toNat).length = 4 := by
  constructor
  · have hfind : (pre ++ e :: post).find? isDateTag = some e :=
      find?_first_of_append isDateTag pre e post hpre he
    simp [determine_subfolder_name_from_metadata, hx, hp, hfind, hv, ht,
      formatY, hy0, hy1]
  · rfl

/-- Entries for the C3 witness: a non-date entry first, a
DateTimeOriginal entry carrying 2021-06-15T10:00:00+02:00, then a later
CreateDate entry carrying 1999 that must lose. -/
def witnessOtherEntry : ExifEntry := { tag := some (ExifTag.other 7), value := none }

def witnessDateTime : TimeVal :=
  { year := 2021, month := 6, day := 15, hour := 10, minute := 0, second := 0,
    offset_minutes := 120 }

def witnessDateEntry : ExifEntry :=
  { tag := some ExifTag.DateTimeOriginal, value := some (EntryValue.time witnessDateTime) }

def witnessLaterEntry : ExifEntry :=
  { tag := some ExifTag.CreateDate,
    value := some (EntryValue.time
      { year := 1999, month := 1, day := 1, hour := 0, minute := 0, second := 0,
        offset_minutes := 0 }) }

def witnessExifSource : MediaSourceData :=
  { has_exif := true, has_track := false,
    exif_parse := Except.ok [witnessOtherEntry, witnessDateEntry, witnessLaterEntry],
    track_parse := Except.ok { create_date := none } }

/-- C3 witness: on the concrete source above the classifier returns the
subfolder name "2021", a four-character string. -/
theorem exif_first_date_tag_year_subfolder_witness :
    determine_subfolder_name_from_metadata (Except.ok witnessExifSource)
      = ([], ClassifyOutcome.ret (some (pad4 2021)))
    ∧ (pad4 2021).length = 4 :=
  exif_first_date_tag_year_subfolder witnessExifSource [witnessOtherEntry]
    [witnessLaterEntry] witnessDateEntry (EntryValue.time witnessDateTime)
    witnessDateTime rfl rfl (by decide) (by decide) rfl rfl (by decide) (by decide)

/-- C5: when the source carries photographic metadata but the Exif parse
fails, the classifier warns and returns the fixed fallback label
NOT_QUALIFIED, and in non-dry-run mode the walker then creates the
fallback bucket under the output root and renames the file into it. -/
theorem exif_parse_failure_fallback_move :
    (∀ (ms : MediaSourceData) (error : String),
        ms.has_exif = true → ms.exif_parse = Except.error error →
        determine_subfolder_name_from_metadata (Except.ok ms)
          = ([LogLine.warning ("Failed parsing Exif data. Details: " ++ error)],
              ClassifyOutcome.ret (some NOT_QUALIFIED)))
    ∧ (∀ (is_debug : Bool) (out : String) (index amount : Nat) (entry : EntryPath)
          (name ext : String) (ms : MediaSourceData) (error : String),
        entry.fileName = some name → entry.extension = some ext →
        recognizedExtensions.contains (toLowercase ext) = true →
        entry.meta = Except.ok ms →
        ms.has_exif = true → ms.exif_parse = Except.error error →
        processFile is_debug out false index amount (Except.ok entry)
          = (headerLogs is_debug index amount name
              ++ [LogLine.warning ("Failed parsing Exif data. Details: " ++ error)],
              [FsAction.create_dir_all (out ++ "/" ++ NOT_QUALIFIED),
                FsAction.rename entry.path (out ++ "/" ++ NOT_QUALIFIED ++ "/" ++ name)],
              false)) := by
  constructor
  · intro ms error hx hp
    exact classify_exif_parse_error ms error hx hp
  · intro is_debug out index amount entry name ext ms error hn hext hrec hm hx hp
    have hcls := classify_exif_parse_error ms error hx hp
    have hmem : toLowercase ext ∈ recognizedExtensions := by simpa using hrec
    simp [processFile, hn, hext, hrec, hm, hcls, hmem]

/-- Concrete data for the C5 witness: a `.png` entry whose media source
reports photographic metadata but whose Exif parse fails. -/
def brokenPngSource : MediaSourceData :=
  { has_exif := true, has_track := false,
    exif_parse := Except.error "parse error",
    track_parse := Except.ok { create_date := none } }

def brokenPngEntry : EntryPath :=
  { path := "/in/broken.png", fileName := some "broken.png",
    extension := some "png", meta := Except.ok brokenPngSource }

/-- C5 witness: `broken.png` is warned about and moved (not skipped)
into `/out/NOT_QUALIFIED/broken.png`. -/
theorem exif_parse_failure_fallback_move_witness :
    processFile false "/out" false 0 1 (Except.ok brokenPngEntry)
      = (headerLogs false 0 1 "broken.png"
          ++ [LogLine.warning ("Failed parsing Exif data. Details: " ++ "parse error")],
          [FsAction.create_dir_all ("/out" ++ "/" ++ NOT_QUALIFIED),
            FsAction.rename "/in/broken.png" ("/out" ++ "/" ++ NOT_QUALIFIED ++ "/" ++ "broken.png")],
          false) :=
  exif_parse_failure_fallback_move.2 false "/out" 0 1 brokenPngEntry "broken.png" "png"
    brokenPngSource "parse error" rfl rfl (by decide) rfl rfl rfl

/-! ## Claim theorems: walker level -/

/-- C6: if `fs::read_dir` on the input folder fails, the run prints only
the startup lines plus one fatal error line, performs no filesystem
action, and terminates with exit code 1 — no file is processed; the
fatal line goes to standard error. -/
theorem input_dir_open_failure_exit1 (is_debug : Bool) (args : Cli) (error : String) :
    runMain is_debug args (Except.error error)
      = (startupLogs is_debug
          ++ [LogLine.error ("Error while reading input directory. Details: " ++ error)],
          [], RunOutcome.exit1)
    ∧ (LogLine.error ("Error while reading input directory. Details: " ++ error)).stream
        = OutStream.stderr :=
  ⟨rfl, rfl⟩

/-- Concrete data for C7: a `readme.txt` entry (unrecognized extension). -/
def readmeEntry : EntryPath :=
  { path := "/in/readme.txt", fileName := some "readme.txt",
    extension := some "txt",
    meta := Except.ok
      { has_exif := false, has_track := false,
        exif_parse := Except.ok [], track_parse := Except.ok { create_date := none } } }

/-- C7 counterexample: the claim says an entry with an unrecognized
extension gets no log line beyond the generic `Processing file N of M`
line.  With debug logging enabled, the loop also emits the
`File name: ...` debug line for that entry (it is printed before the
extension filter), so the emitted logs are not just the generic line. -/
theorem unrecognized_extension_debug_log_cx :
    ¬ ((processFile true "/out" false 0 1 (Except.ok readmeEntry)).1
        = [LogLine.info "Processing file 1 of 1 ⏳"]) := by decide

/-- C7 amended: an entry with an unrecognized (lowercased) extension is
skipped with no move, no abort, and no log line beyond the generic
processing line and — when debug logging is enabled — the debug
file-name line; the classifier is never invoked (the result does not
depend on the metadata of the entry). -/
theorem unrecognized_extension_silent_skip (is_debug : Bool) (out : String)
    (dry_run : Bool) (index amount : Nat) (entry : EntryPath) (name ext : String)
    (hn : entry.fileName = some name) (hext : entry.extension = some ext)
    (hrec : recognizedExtensions.contains (toLowercase ext) = false) :
    processFile is_debug out dry_run index amount (Except.ok entry)
      = (headerLogs is_debug index amount name, [], false) := by
  have hmem : toLowercase ext ∉ recognizedExtensions := by simpa using hrec
  simp [processFile, hn, hext, hmem]

/-- C7 witness: the amended statement on the concrete `readme.txt` entry
with debug logging enabled. -/
theorem unrecognized_extension_silent_skip_witness :
    processFile true "/out" false 0 1 (Except.ok readmeEntry)
      = (headerLogs true 0 1 "readme.txt", [], false) :=
  unrecognized_extension_silent_skip true "/out" false 0 1 readmeEntry
    "readme.txt" "txt" rfl rfl (by decide)

/-- C8: whenever the classifier returns a subfolder name, the non-dry
run creates `{output_folder}/{subfolder}` and renames the file to
`{output_folder}/{subfolder}/{original_file_name}` — one subfolder
level, original name kept verbatim, no collision handling. -/
theorem destination_path_shape (is_debug : Bool) (out : String)
    (index amount : Nat) (entry : EntryPath) (name ext sub : String)
    (clogs : List LogLine)
    (hn : entry.fileName = some name) (hext : entry.extension = some ext)
    (hrec : recognizedExtensions.contains (toLowercase ext) = true)
    (hcls : determine_subfolder_name_from_metadata entry.meta
        = (clogs, ClassifyOutcome.ret (some sub))) :
    processFile is_debug out false index amount (Except.ok entry)
      = (headerLogs is_debug index amount name ++ clogs,
          [FsAction.create_dir_all (out ++ "/" ++ sub),
            FsAction.rename entry.path (out ++ "/" ++ sub ++ "/" ++ name)],
          false) := by
  have hmem : toLowercase ext ∈ recognizedExtensions := by simpa using hrec
  simp [processFile, hn, hext, hmem, hcls]

/-- Concrete data for the C8 and C9 witnesses: a `photo.jpg` with a
DateTimeOriginal of 2021-06-15T10:00:00. -/
def photoTime : TimeVal :=
  { year := 2021, month := 6, day := 15, hour := 10, minute := 0, second := 0,
    offset_minutes := 0 }

def photoSource : MediaSourceData :=
  { has_exif := true, has_track := false,
    exif_parse := Except.ok
      [{ tag := some ExifTag.DateTimeOriginal, value := some (EntryValue.time photoTime) }],
    track_parse := Except.ok { create_date := none } }

def photoEntry : EntryPath :=
  { path := "/in/photo.jpg", fileName := some "photo.jpg",
    extension := some "jpg", meta := Except.ok photoSource }

/-- C8 witness: `photo.jpg` classified into year 2021 is renamed to
`/out/2021/photo.jpg` after creating `/out/2021`. -/
theorem destination_path_shape_witness :
    processFile false "/out" false 0 1 (Except.ok photoEntry)
      = (headerLogs false 0 1 "photo.jpg" ++ [],
          [FsAction.create_dir_all ("/out" ++ "/" ++ pad4 2021),
            FsAction.rename "/in/photo.jpg" ("/out" ++ "/" ++ pad4 2021 ++ "/" ++ "photo.jpg")],
          false) :=
  destination_path_shape false "/out" 0 1 photoEntry "photo.jpg" "jpg" (pad4 2021) []
    rfl rfl (by decide) (by decide)

/-- C9: an entry without a usable file-name string panics before any log
line of its own; one with a name but no usable extension string panics
right after the header lines, before the recognized-extension filter is
consulted (the result does not depend on the metadata of the entry); and a
panicking iteration ends the whole run with `aborted`, leaving every
later entry unprocessed (the run result does not depend on `rest`). -/
theorem missing_name_or_extension_aborts :
    (∀ (is_debug : Bool) (out : String) (dry_run : Bool) (index amount : Nat)
        (entry : EntryPath),
        entry.fileName = none →
        processFile is_debug out dry_run index amount (Except.ok entry) = ([], [], true))
    ∧ (∀ (is_debug : Bool) (out : String) (dry_run : Bool) (index amount : Nat)
          (entry : EntryPath) (name : String),
        entry.fileName = some name → entry.extension = none →
        processFile is_debug out dry_run index amount (Except.ok entry)
          = (headerLogs is_debug index amount name, [], true))
    ∧ (∀ (is_debug : Bool) (out : String) (dry_run : Bool) (amount index : Nat)
          (file : Except String EntryPath) (rest : List (Except String EntryPath))
          (logs : List LogLine) (actions : List FsAction),
        processFile is_debug out dry_run index amount file = (logs, actions, true) →
        processEntries is_debug out dry_run amount index (file :: rest)
          = (logs, actions, RunOutcome.aborted)) := by
  refine ⟨?_, ?_, ?_⟩
  · intro is_debug out dry_run index amount entry hn
    simp [processFile, hn]
  · intro is_debug out dry_run index amount entry name hn hext
    simp [processFile, hn, hext]
  · intro is_debug out dry_run amount index file rest logs actions hfile
    simp [processEntries, hfile]

/-- Concrete entries for the C9 witness. -/
def noNameEntry : EntryPath :=
  { path := "/in/..", fileName := none, extension := some "jpg",
    meta := Except.ok photoSource }

def noExtEntry : EntryPath :=
  { path := "/in/noext", fileName := some "noext", extension := none,
    meta := Except.ok photoSource }

/-- C9 witness: both defective entries panic, and a run whose first
entry panics aborts with no action, regardless of the remaining
entries. -/
theorem missing_name_or_extension_aborts_witness :
    processFile false "/out" false 0 2 (Except.ok noNameEntry) = ([], [], true)
    ∧ processFile false "/out" false 0 2 (Except.ok noExtEntry)
        = (headerLogs false 0 2 "noext", [], true)
    ∧ processEntries false "/out" false 2 0 [Except.ok noNameEntry, Except.ok photoEntry]
        = ([], [], RunOutcome.aborted) :=
  ⟨missing_name_or_extension_aborts.1 false "/out" false 0 2 noNameEntry rfl,
    missing_name_or_extension_aborts.2.1 false "/out" false 0 2 noExtEntry "noext" rfl rfl,
    missing_name_or_extension_aborts.2.2 false "/out" false 2 0 (Except.ok noNameEntry)
      [Except.ok photoEntry] [] [] rfl⟩

/-- Dry-run versus real run, one loop iteration: same panic behaviour,
no filesystem action under dry-run, and the log lines of the real run form a
sub-sequence of those of the dry run (dry-run only adds the two informational
`Dry run`/`Would move` lines). -/
theorem processFile_dry_run (is_debug : Bool) (out : String) (index amount : Nat)
    (file : Except String EntryPath) :
    (processFile is_debug out true index amount file).2.1 = []
    ∧ (processFile is_debug out true index amount file).2.2
        = (processFile is_debug out false index amount file).2.2
    ∧ List.Sublist (processFile is_debug out false index amount file).1
        (processFile is_debug out true index amount file).1 := by
  rcases file with err | entry
  · simp [processFile]
  · rcases hn : entry.fileName with _ | name
    · simp [processFile, hn]
    · rcases hext : entry.extension with _ | ext
      · simp [processFile, hn, hext]
      · rcases hc : recognizedExtensions.contains (toLowercase ext) with _ | _
        · have hmem : toLowercase ext ∉ recognizedExtensions := by simpa using hc
          simp [processFile, hn, hext, hmem]
        · have hmem : toLowercase ext ∈ recognizedExtensions := by simpa using hc
          rcases hd : determine_subfolder_name_from_metadata entry.meta with ⟨clogs, co⟩
          rcases co with r | _
          · rcases r with _ | sub
            · simp [processFile, hn, hext, hmem, hd]
            · have hdryEq : processFile is_debug out true index amount (Except.ok entry)
                  = ((headerLogs is_debug index amount name ++ clogs)
                      ++ [LogLine.info "Dry run... (Skipping moving the file.)",
                          LogLine.info ("Would move " ++ name ++ " to "
                            ++ (out ++ "/" ++ sub ++ "/" ++ name))],
                      [], false) := by
                simp [processFile, hn, hext, hmem, hd]
              have hwetEq : processFile is_debug out false index amount (Except.ok entry)
                  = (headerLogs is_debug index amount name ++ clogs,
                      [FsAction.create_dir_all (out ++ "/" ++ sub),
                        FsAction.rename entry.path (out ++ "/" ++ sub ++ "/" ++ name)],
                      false) := by
                simp [processFile, hn, hext, hmem, hd]
              rw [hdryEq, hwetEq]
              exact ⟨rfl, rfl, List.sublist_append_left _ _⟩
          · simp [processFile, hn, hext, hmem, hd]

/-- Dry-run versus real run over the whole loop: same terminal outcome,
no filesystem actions, real-run log stream is a sub-sequence of the
dry-run log stream. -/
theorem processEntries_dry_run (is_debug : Bool) (out : String) (amount : Nat)
    (files : List (Except String EntryPath)) :
    ∀ index : Nat,
      (processEntries is_debug out true amount index files).2.1 = []
      ∧ (processEntries is_debug out true amount index files).2.2
          = (processEntries is_debug out false amount index files).2.2
      ∧ List.Sublist (processEntries is_debug out false amount index files).1
          (processEntries is_debug out true amount index files).1 := by
  induction files with
  | nil => intro index; simp [processEntries]
  | cons f rest ih =>
    intro index
    obtain ⟨h1, h2, h3⟩ := processFile_dry_run is_debug out index amount f
    obtain ⟨i1, i2, i3⟩ := ih (index + 1)
    rcases hf : processFile is_debug out true index amount f with ⟨ld, ad, pd⟩
    rcases hg : processFile is_debug out false index amount f with ⟨lw, aw, pw⟩
    rw [hf] at h1 h2 h3
    rw [hg] at h2 h3
    simp only [] at h1 h2 h3
    rcases hd2 : processEntries is_debug out true amount (index + 1) rest with ⟨ld2, ad2, od⟩
    rcases hw2 : processEntries is_debug out false amount (index + 1) rest with ⟨lw2, aw2, ow⟩
    rw [hd2] at i1 i2 i3
    rw [hw2] at i2 i3
    simp only [] at i1 i2 i3
    subst h2
    cases pd with
    | true =>
      simp [processEntries, hf, hg, h1, h3]
    | false =>
      simp [processEntries, hf, hg, hd2, hw2, h1, i1, i2]
      exact List.Sublist.append h3 i3

/-- C4: for any input, a dry run performs zero filesystem mutations and
reaches the same terminal outcome as the identically-configured real
run, and every log line of the real run appears (in order) in the dry
log of the run under dry-run contains every real-run line in order,
adding only its `Dry run`/`Would move` info lines
in place of the actual move. -/
theorem dry_run_zero_mutations (is_debug : Bool) (input output : String)
    (dir : Except String (List (Except String EntryPath))) :
    (runMain is_debug { input_folder := input, output_folder := output, dry_run := true } dir).2.1 = []
    ∧ (runMain is_debug { input_folder := input, output_folder := output, dry_run := true } dir).2.2
        = (runMain is_debug { input_folder := input, output_folder := output, dry_run := false } dir).2.2
    ∧ List.Sublist
        (runMain is_debug { input_folder := input, output_folder := output, dry_run := false } dir).1
        (runMain is_debug { input_folder := input, output_folder := output, dry_run := true } dir).1 := by
  rcases dir with err | files
  · exact ⟨rfl, rfl, List.Sublist.refl _⟩
  · obtain ⟨h1, h2, h3⟩ := processEntries_dry_run is_debug output files.length files 0
    rcases hd : processEntries is_debug output true files.length 0 files with ⟨ld, ad, od⟩
    rcases hw : processEntries is_debug output false files.length 0 files with ⟨lw, aw, ow⟩
    rw [hd] at h1 h2 h3
    rw [hw] at h2 h3
    simp only [] at h1 h2 h3
    simp [runMain, hd, hw, h1, h2]
    exact h3
